import Mathlib

/-!
Shallow embedding of the Device State Synchronization Engine of the
Autelis/Jandy pool-controller node server (`autelis-poly.py`).

The embedding models the in-memory state of the `Controller` object
(its own driver table, the table of child nodes keyed by address, the
cached temperature unit, the ignore-solar flag) together with the pure
data of one status snapshot, and translates the Python methods
`discover_nodes`, `update_node_states`, `set_node_state`,
`change_temp_units`, `set_temp_unit` and `update_mode_drivers` into
Lean functions.  Python exceptions (ValueError / TypeError /
AttributeError escaping a method) are modelled with `Except String`;
the external hub primitives (`setDriver`, `updateNode`) are modelled as
pure updates of the driver table plus an append-only log of
re-announced node addresses.
-/

namespace Autelis

/-- UOM constants, verbatim from the top of `autelis-poly.py`. -/
def ISY_BOOL_UOM : Nat := 2

def ISY_INDEX_UOM : Nat := 25

def ISY_TEMP_F_UOM : Nat := 17

def ISY_TEMP_C_UOM : Nat := 4

def ISY_THERMO_MODE_UOM : Nat := 67

def ISY_THERMO_HCS_UOM : Nat := 66

def ISY_VOLT_UOM : Nat := 72

/-- the Python constant `_VBAT_CONST = 0.01464`, as an exact rational. -/
def VBAT_CONST : Rat := mkRat 1464 100000

/-- whitespace recognised by the model of Python's `int()` / `float()`
string stripping. -/
def isWs (c : Char) : Bool :=
  c == ' ' || c == '\t' || c == '\n' || c == '\r'

/-- strip leading and trailing whitespace from a character list. -/
def stripWs (cs : List Char) : List Char :=
  ((cs.dropWhile isWs).reverse.dropWhile isWs).reverse

/-- value of a list of decimal digit characters. -/
def digitsToNat (cs : List Char) : Nat :=
  cs.foldl (fun a c => a * 10 + (c.toNat - 48)) 0

/-- model of Python's `int(s)` on a decimal string: optional
whitespace, optional sign, then one or more digits; anything else
raises `ValueError` (modelled as `none`). -/
def pythonInt (s : String) : Option Int :=
  match stripWs s.toList with
  | [] => none
  | c :: rest =>
    if c == '-' then
      if rest ≠ [] ∧ rest.all Char.isDigit then some (-(digitsToNat rest : Int)) else none
    else if c == '+' then
      if rest ≠ [] ∧ rest.all Char.isDigit then some (digitsToNat rest : Int) else none
    else
      if (c :: rest).all Char.isDigit then some (digitsToNat (c :: rest) : Int) else none

/-- model of Python's `float(s)` on a plain decimal string: optional
sign, digits with an optional dot somewhere (digits required on at
least one side); the result is an exact rational. -/
def pythonFloat (s : String) : Option Rat :=
  match stripWs s.toList with
  | [] => none
  | c :: rest =>
    let body := if c = '-' ∨ c = '+' then rest else c :: rest
    let intPart := body.takeWhile (fun d => !(d == '.'))
    let mag : Option Rat :=
      match body.dropWhile (fun d => !(d == '.')) with
      | [] =>
        if body ≠ [] ∧ body.all Char.isDigit then
          some ((digitsToNat body : Rat))
        else none
      | _ :: frac =>
        if (intPart ++ frac) ≠ [] ∧ intPart.all Char.isDigit ∧ frac.all Char.isDigit ∧
            frac.all (fun d => !(d == '.')) then
          some ((digitsToNat intPart : Rat) + mkRat (digitsToNat frac) (10 ^ frac.length))
        else none
    match mag with
    | none => none
    | some m => some (if c = '-' then -m else m)

/-- Python `int(value)` on a stream value (always a string): a
non-numeric string raises `ValueError`. -/
def asIntS (s : String) : Except String Int :=
  match pythonInt s with
  | some n => Except.ok n
  | none => Except.error "ValueError"

/-- Python `float(value)` on a stream value. -/
def asFloatS (s : String) : Except String Rat :=
  match pythonFloat s with
  | some q => Except.ok q
  | none => Except.error "ValueError"

/-- Python `int(elem.text)` where the element's text may be missing:
`int(None)` raises `TypeError`. -/
def asInt (v : Option String) : Except String Int :=
  match v with
  | none => Except.error "TypeError"
  | some s => asIntS s

/-- Python `float(elem.text)` where the element's text may be missing. -/
def asFloat (v : Option String) : Except String Rat :=
  match v with
  | none => Except.error "TypeError"
  | some s => asFloatS s

/-- one driver record of a node: attribute name, current value,
unit-of-measure tag (`{"driver": .., "value": .., "uom": ..}`). -/
structure Driver where
  driver : String
  value : Rat
  uom : Nat
deriving DecidableEq

/-- write `value` into the named driver of a driver table (the
polyinterface `setDriver` primitive: it updates an existing entry and
is a no-op on an unknown name). -/
def setDriverL (ds : List Driver) (name : String) (v : Rat) : List Driver :=
  ds.map (fun d => if d.driver = name then { d with value := v } else d)

/-- read the current value of the named driver. -/
def getDriver : List Driver → String → Option Rat
  | [], _ => none
  | d :: rest, name => if d.driver = name then some d.value else getDriver rest name

/-- read the UOM tag of the named driver. -/
def getUom : List Driver → String → Option Nat
  | [], _ => none
  | d :: rest, name => if d.driver = name then some d.uom else getUom rest name

/-- one child node of the controller: node-definition id, address,
name, and its driver table. -/
structure PNode where
  id : String
  address : String
  name : String
  drivers : List Driver
deriving DecidableEq

/-- `node.setDriver(name, v)`. -/
def PNode.setD (n : PNode) (name : String) (v : Rat) : PNode :=
  { n with drivers := setDriverL n.drivers name v }

/-- node-definition id used by `TempControl.set_temp_unit` for a unit. -/
def tcId (tempUnit : String) : String :=
  if tempUnit = "C" then "TEMP_CONTROL_C" else "TEMP_CONTROL"

/-- temperature UOM chosen for a unit string, as in both
`set_temp_unit` methods. -/
def uomFor (tempUnit : String) : Nat :=
  if tempUnit = "C" then ISY_TEMP_C_UOM else ISY_TEMP_F_UOM

/-- `TempControl.set_temp_unit`: switch the node-definition id and the
UOM tag of the ST / CLISPH / CLISPC drivers; values are untouched. -/
def PNode.set_temp_unit (n : PNode) (tempUnit : String) : PNode :=
  { n with
    id := tcId tempUnit,
    drivers := n.drivers.map (fun d =>
      if d.driver = "ST" ∨ d.driver = "CLISPH" ∨ d.driver = "CLISPC" then
        { d with uom := uomFor tempUnit }
      else d) }

/-- the class-level driver template of `TempControl`. -/
def tempControlDrivers : List Driver :=
  [⟨"ST", 0, ISY_TEMP_F_UOM⟩,
   ⟨"CLISPH", 0, ISY_TEMP_F_UOM⟩,
   ⟨"CLIMD", 0, ISY_THERMO_MODE_UOM⟩,
   ⟨"CLIHCS", 0, ISY_THERMO_HCS_UOM⟩,
   ⟨"CLISPC", 0, ISY_TEMP_F_UOM⟩]

/-- `TempControl(controller, primary, address, name, tempUnit)`: the
constructor applies `set_temp_unit` to the driver template before the
node is registered. -/
def mkTempControl (address name tempUnit : String) : PNode :=
  PNode.set_temp_unit ⟨"TEMP_CONTROL", address, name, tempControlDrivers⟩ tempUnit

/-- `Equipment(controller, primary, address, name)` with its single ST
driver. -/
def mkEquipment (address name : String) : PNode :=
  ⟨"EQUIPMENT", address, name, [⟨"ST", 0, ISY_INDEX_UOM⟩]⟩

/-- `TempControl.update_mode_drivers(state)`: the tri-valued status
code sets the CLIMD / CLIHCS pair; any other code (including a blank
`None` text) leaves the node unchanged. -/
def PNode.update_mode_drivers (n : PNode) (state : Option String) : PNode :=
  if state = some "0" then (n.setD "CLIMD" 0).setD "CLIHCS" 0
  else if state = some "1" then (n.setD "CLIMD" 1).setD "CLIHCS" 0
  else if state = some "2" then (n.setD "CLIMD" 1).setD "CLIHCS" 1
  else n

/-- the system block of one status snapshot (`<system>` element).  A
field is `none` when the element is missing or has no text (either
way, a numeric conversion of it raises). -/
structure SystemBlock where
  runstate : Option String
  opmode : Option String
  lowbat : Option String
  vbat : Option String
deriving DecidableEq

/-- the temperature-config block of one status snapshot (`<temp>`
element), same conventions as `SystemBlock`. -/
structure TempBlock where
  tempunits : Option String
  airtemp : Option String
  poolsp : Option String
  poolsp2 : Option String
  spasp : Option String
  pooltemp : Option String
  spatemp : Option String
  solartemp : Option String
deriving DecidableEq

/-- one parsed status snapshot: system block, temp block, and the
ordered `(tag, text)` children of the `<equipment>` element. -/
structure Snapshot where
  system : SystemBlock
  temp : TempBlock
  equipment : List (String × Option String)
deriving DecidableEq

/-- the Controller aggregate: its own driver table, the child-node
table in insertion order (Python dict `self.nodes`), the cached
temperature unit, the ignore-solar flag, and the append-only log of
addresses re-announced through the hub's `updateNode` primitive. -/
structure Controller where
  drivers : List Driver
  nodes : List (String × PNode)
  currentTempUnit : String
  ignoresolar : Bool
  announcements : List String
deriving DecidableEq

/-- the class-level driver template of the `Controller` node. -/
def controllerDrivers : List Driver :=
  [⟨"ST", 0, ISY_BOOL_UOM⟩,
   ⟨"GV0", 0, ISY_INDEX_UOM⟩,
   ⟨"GV1", 0, ISY_INDEX_UOM⟩,
   ⟨"GV2", 0, ISY_INDEX_UOM⟩,
   ⟨"BATLVL", 0, ISY_VOLT_UOM⟩,
   ⟨"CLITEMP", 0, ISY_TEMP_F_UOM⟩]

/-- `addr in self.nodes` / `self.nodes[addr]`: first entry with the
given address. -/
def lookupNode : List (String × PNode) → String → Option PNode
  | [], _ => none
  | p :: rest, addr => if p.1 = addr then some p.2 else lookupNode rest addr

/-- apply an in-place mutation to the node stored at an address. -/
def updateNodeAt (ns : List (String × PNode)) (addr : String) (f : PNode → PNode) :
    List (String × PNode) :=
  ns.map (fun p => if p.1 = addr then (p.1, f p.2) else p)

/-- `self.addNode(node)`: register a node under its address (replace
an existing entry, else append preserving insertion order). -/
def addNode (ns : List (String × PNode)) (n : PNode) : List (String × PNode) :=
  if (lookupNode ns n.address).isSome then
    updateNodeAt ns n.address (fun _ => n)
  else ns ++ [(n.address, n)]

/-- `Controller.set_temp_unit`: retag the CLITEMP driver's UOM,
re-announce the controller node (`updateNode(self)`), cache the unit. -/
def Controller.set_temp_unit (c : Controller) (tempUnit : String) : Controller :=
  { c with
    drivers := c.drivers.map (fun d =>
      if d.driver = "CLITEMP" then { d with uom := uomFor tempUnit } else d),
    announcements := c.announcements ++ ["controller"],
    currentTempUnit := tempUnit }

/-- the loop body of `change_temp_units`: a node whose id is one of the
TempControl node-definition ids gets `set_temp_unit`, others are left
alone. -/
def migrateNode (tempUnit : String) (n : PNode) : PNode :=
  if n.id = "TEMP_CONTROL" ∨ n.id = "TEMP_CONTROL_C" then n.set_temp_unit tempUnit else n

/-- `Controller.change_temp_units`: migrate every TempControl node's
metadata (re-announcing each), then the controller's own. -/
def change_temp_units (c : Controller) (newTempUnit : String) : Controller :=
  Controller.set_temp_unit
    { c with
      nodes := c.nodes.map (fun p => (p.1, migrateNode newTempUnit p.2)),
      announcements := c.announcements ++
        c.nodes.filterMap (fun p =>
          if p.2.id = "TEMP_CONTROL" ∨ p.2.id = "TEMP_CONTROL_C" then some p.1 else none) }
    newTempUnit

/-- the four thermal-zone addresses recognised by discovery and
reconciliation. -/
def isTempControlAddr (addr : String) : Bool :=
  addr == "poolht" || addr == "poolht2" || addr == "spaht" || addr == "solarht"

/-- the guard of the discovery loop: process an equipment element only
when it has a text value, and never `solarht` when the ignore-solar
flag is set. -/
def discoverQualifies (ignoresolar : Bool) (e : String × Option String) : Bool :=
  e.2.isSome && !(e.1 == "solarht" && ignoresolar)

/-- the node created by discovery for one qualifying element tag. -/
def discoverNode (tempUnit addr : String) : PNode :=
  if isTempControlAddr addr then mkTempControl addr addr tempUnit
  else mkEquipment addr addr

/-- the discovery loop over the equipment children. -/
def discoverFold (tempUnit : String) (ignoresolar : Bool) :
    List (String × Option String) → List (String × PNode) → List (String × PNode)
  | [], ns => ns
  | e :: rest, ns =>
    discoverFold tempUnit ignoresolar rest
      (if discoverQualifies ignoresolar e then addNode ns (discoverNode tempUnit e.1) else ns)

/-- the body of discovery once the snapshot's unit string has been
read: retag the controller if the unit differs from the cached one,
then create one node per qualifying equipment element. -/
def discover_with_unit (c : Controller) (snap : Snapshot) (tempUnit : String) : Controller :=
  { (if tempUnit ≠ c.currentTempUnit then c.set_temp_unit tempUnit else c) with
    nodes := discoverFold tempUnit
      (if tempUnit ≠ c.currentTempUnit then c.set_temp_unit tempUnit else c).ignoresolar
      snap.equipment
      (if tempUnit ≠ c.currentTempUnit then c.set_temp_unit tempUnit else c).nodes }

/-- `Controller.discover_nodes`: on a missing snapshot the process
exits (`sys.exit`, modelled as an error); otherwise read the unit from
the temp block (a missing `tempunits` element raises) and run
discovery with it. -/
def discover_nodes (c : Controller) (statusXML : Option Snapshot) : Except String Controller :=
  match statusXML with
  | none => Except.error "SystemExit"
  | some snap =>
    match snap.temp.tempunits with
    | none => Except.error "AttributeError"
    | some tempUnit => Except.ok (discover_with_unit c snap tempUnit)

/-- the setpoint element read for a thermal-zone address during
reconciliation (the final branch is the `solarht` case, which borrows
`poolsp`). -/
def setpointSrc (tB : TempBlock) (addr : String) : Option String :=
  if addr = "poolht" then tB.poolsp
  else if addr = "poolht2" then tB.poolsp2
  else if addr = "spaht" then tB.spasp
  else tB.poolsp

/-- the current-reading element read for a thermal-zone address during
reconciliation. -/
def readingSrc (tB : TempBlock) (addr : String) : Option String :=
  if addr = "poolht" then tB.pooltemp
  else if addr = "poolht2" then tB.pooltemp
  else if addr = "spaht" then tB.spatemp
  else tB.solartemp

/-- the per-node effect of one equipment element during
reconciliation: a thermal-zone address writes ST (current reading) and
CLISPH (setpoint) and derives the mode pair from the element's status
code; any other address writes `int(state)` into ST. -/
def elemUpdate (tB : TempBlock) (addr : String) (state : Option String) (n : PNode) :
    Except String PNode :=
  if isTempControlAddr addr then
    match asInt (setpointSrc tB addr) with
    | Except.error e => Except.error e
    | Except.ok sp =>
      match asInt (readingSrc tB addr) with
      | Except.error e => Except.error e
      | Except.ok ct =>
        Except.ok (((n.setD "ST" (ct : Rat)).setD "CLISPH" (sp : Rat)).update_mode_drivers state)
  else
    match asInt state with
    | Except.error e => Except.error e
    | Except.ok v => Except.ok (n.setD "ST" (v : Rat))

/-- one iteration of the reconciliation loop: elements without a live
node are skipped. -/
def applyEquipElement (tB : TempBlock) (ns : List (String × PNode))
    (e : String × Option String) : Except String (List (String × PNode)) :=
  match lookupNode ns e.1 with
  | none => Except.ok ns
  | some n =>
    match elemUpdate tB e.1 e.2 n with
    | Except.error er => Except.error er
    | Except.ok n2 => Except.ok (updateNodeAt ns e.1 (fun _ => n2))

/-- the reconciliation loop over all equipment children, in snapshot
order. -/
def applyEquipElements (tB : TempBlock) :
    List (String × Option String) → List (String × PNode) →
    Except String (List (String × PNode))
  | [], ns => Except.ok ns
  | e :: rest, ns =>
    match applyEquipElement tB ns e with
    | Except.error er => Except.error er
    | Except.ok ns2 => applyEquipElements tB rest ns2

/-- the unit check at the top of `update_node_states`: migrate only
when the snapshot reports a unit different from the cached one. -/
def unitSync (c : Controller) (tempUnit : String) : Controller :=
  if tempUnit ≠ c.currentTempUnit then change_temp_units c tempUnit else c

/-- the five controller-level writes of the reconcile pass. -/
def controllerWrites (ds : List Driver) (runstate opmode lowbat : Int) (vbat : Rat)
    (airtemp : Int) : List Driver :=
  setDriverL (setDriverL (setDriverL (setDriverL (setDriverL
    ds "GV0" (runstate : Rat)) "GV1" (opmode : Rat)) "GV2" (lowbat : Rat))
    "BATLVL" (vbat * VBAT_CONST)) "CLITEMP" (airtemp : Rat)

/-- the body of the reconcile pass after the snapshot's unit string
has been read: migrate units if it differs from the cached unit, parse
and write the five controller-level values, then run the
reconciliation loop. -/
def update_snap_core (c : Controller) (snap : Snapshot) (tempUnit : String) :
    Except String Controller :=
  match asInt snap.system.runstate with
    | Except.error e => Except.error e
    | Except.ok runstate =>
    match asInt snap.system.opmode with
    | Except.error e => Except.error e
    | Except.ok opmode =>
    match asInt snap.system.lowbat with
    | Except.error e => Except.error e
    | Except.ok lowbat =>
    match asFloat snap.system.vbat with
    | Except.error e => Except.error e
    | Except.ok vbat =>
    match asInt snap.temp.airtemp with
    | Except.error e => Except.error e
    | Except.ok airtemp =>
    match applyEquipElements snap.temp snap.equipment (unitSync c tempUnit).nodes with
    | Except.error e => Except.error e
    | Except.ok ns =>
      Except.ok { unitSync c tempUnit with
        drivers := controllerWrites (unitSync c tempUnit).drivers runstate opmode lowbat
          vbat airtemp,
        nodes := ns }

/-- the body of `update_node_states` once a snapshot has been
obtained: read the unit string (a missing `tempunits` element raises)
and run the core pass. -/
def update_node_states_snap (c : Controller) (snap : Snapshot) : Except String Controller :=
  match snap.temp.tempunits with
  | none => Except.error "AttributeError"
  | some tempUnit => update_snap_core c snap tempUnit

/-- `Controller.update_node_states`: a failed snapshot fetch only
writes run-state 0 (and logs); otherwise the snapshot is reconciled by
`update_node_states_snap`.  The `report` flag only controls external
notification and does not affect state. -/
def update_node_states (c : Controller) (_report : Bool) (statusXML : Option Snapshot) :
    Except String Controller :=
  match statusXML with
  | none => Except.ok { c with drivers := setDriverL c.drivers "GV0" 0 }
  | some snap => update_node_states_snap c snap

/-- `Controller.set_node_state(element, value)`: the delta router for
one decoded stream event; returns the updated state and the `retVal`
handled flag, or the exception escaping the handler. -/
def set_node_state (c : Controller) (element value : String) :
    Except String (Controller × Bool) :=
  if element = "runstate" then
    match asIntS value with
    | Except.error e => Except.error e
    | Except.ok v => Except.ok ({ c with drivers := setDriverL c.drivers "GV0" (v : Rat) }, true)
  else if element = "model" then Except.ok (c, true)
  else if element = "dip" then Except.ok (c, true)
  else if element = "opmode" then
    match asIntS value with
    | Except.error e => Except.error e
    | Except.ok v => Except.ok ({ c with drivers := setDriverL c.drivers "GV1" (v : Rat) }, true)
  else if element = "vbat" then
    match asFloatS value with
    | Except.error e => Except.error e
    | Except.ok v =>
      Except.ok ({ c with drivers := setDriverL c.drivers "BATLVL" (v * VBAT_CONST) }, true)
  else if element = "lowbat" then
    match asIntS value with
    | Except.error e => Except.error e
    | Except.ok v => Except.ok ({ c with drivers := setDriverL c.drivers "GV2" (v : Rat) }, true)
  else if element = "poolsp" then
    if (lookupNode c.nodes "poolht").isSome then
      match asIntS value with
      | Except.error e => Except.error e
      | Except.ok v =>
        let ns2 := updateNodeAt c.nodes "poolht" (fun n => n.setD "CLISPH" (v : Rat))
        Except.ok ({ c with nodes := ns2 }, true)
    else Except.ok (c, false)
  else if element = "poolsp2" then
    if (lookupNode c.nodes "poolht2").isSome then
      match asIntS value with
      | Except.error e => Except.error e
      | Except.ok v =>
        let ns2 := updateNodeAt c.nodes "poolht2" (fun n => n.setD "CLISPH" (v : Rat))
        Except.ok ({ c with nodes := ns2 }, true)
    else Except.ok (c, false)
  else if element = "spasp" then
    if (lookupNode c.nodes "spaht").isSome then
      match asIntS value with
      | Except.error e => Except.error e
      | Except.ok v =>
        let ns2 := updateNodeAt c.nodes "spaht" (fun n => n.setD "CLISPH" (v : Rat))
        Except.ok ({ c with nodes := ns2 }, true)
    else Except.ok (c, false)
  else if element = "pooltemp" then
    match (if (lookupNode c.nodes "poolht").isSome then
        match asIntS value with
        | Except.error e => Except.error e
        | Except.ok v =>
          let ns2 := updateNodeAt c.nodes "poolht" (fun n => n.setD "ST" (v : Rat))
          Except.ok ({ c with nodes := ns2 }, true)
      else Except.ok (c, false)) with
    | Except.error e => Except.error e
    | Except.ok (c1, h1) =>
      if (lookupNode c1.nodes "poolht2").isSome then
        match asIntS value with
        | Except.error e => Except.error e
        | Except.ok v =>
          let ns2 := updateNodeAt c1.nodes "poolht2" (fun n => n.setD "ST" (v : Rat))
          Except.ok ({ c1 with nodes := ns2 }, true)
      else Except.ok (c1, h1)
  else if element = "spatemp" then
    if (lookupNode c.nodes "spaht").isSome then
      match asIntS value with
      | Except.error e => Except.error e
      | Except.ok v =>
        let ns2 := updateNodeAt c.nodes "spaht" (fun n => n.setD "ST" (v : Rat))
        Except.ok ({ c with nodes := ns2 }, true)
    else Except.ok (c, false)
  else if element = "airtemp" then
    match asIntS value with
    | Except.error e => Except.error e
    | Except.ok v =>
      Except.ok ({ c with drivers := setDriverL c.drivers "CLITEMP" (v : Rat) }, true)
  else if element = "solartemp" then
    if (lookupNode c.nodes "solarht").isSome then
      match asIntS value with
      | Except.error e => Except.error e
      | Except.ok v =>
        let ns2 := updateNodeAt c.nodes "solarht" (fun n => n.setD "ST" (v : Rat))
        Except.ok ({ c with nodes := ns2 }, true)
    else Except.ok (c, false)
  else if element = "tempunits" then
    Except.ok ((if c.currentTempUnit ≠ value then change_temp_units c value else c), true)
  else if element = "poolht" ∨ element = "poolht2" ∨ element = "spaht" ∨ element = "solarht" then
    if (lookupNode c.nodes element).isSome then
      let ns2 := updateNodeAt c.nodes element (fun n => n.update_mode_drivers (some value))
      Except.ok ({ c with nodes := ns2 }, true)
    else Except.ok (c, false)
  else
    if (lookupNode c.nodes element).isSome then
      match asIntS value with
      | Except.error e => Except.error e
      | Except.ok v =>
        let ns2 := updateNodeAt c.nodes element (fun n => n.setD "ST" (v : Rat))
        Except.ok ({ c with nodes := ns2 }, true)
    else Except.ok (c, false)

/-- projection of a node to its attribute values (name / value pairs),
ignoring metadata (UOM tags and node-definition id). -/
def driverVals (n : PNode) : List (String × Rat) :=
  n.drivers.map (fun d => (d.driver, d.value))

theorem getDriver_setDriverL (ds : List Driver) (name m : String) (v : Rat) :
    getDriver (setDriverL ds name v) m =
      if m = name then (getDriver ds m).map (fun _ => v) else getDriver ds m := by
  induction ds with
  | nil => by_cases h : m = name <;> simp [setDriverL, getDriver, h]
  | cons d rest ih =>
    by_cases hdn : d.driver = name <;> by_cases hdm : d.driver = m <;>
      by_cases hmn : m = name <;>
      simp [setDriverL, getDriver, hdn, hdm, hmn] at ih ⊢ <;> simp_all

theorem getUom_setDriverL (ds : List Driver) (name m : String) (v : Rat) :
    getUom (setDriverL ds name v) m = getUom ds m := by
  induction ds with
  | nil => simp [setDriverL, getUom]
  | cons d rest ih =>
    by_cases hdn : d.driver = name <;> by_cases hdm : d.driver = m <;>
      simp [setDriverL, getUom, hdn, hdm] at ih ⊢ <;> simp_all

theorem getDriver_setD (n : PNode) (name m : String) (v : Rat) :
    getDriver (n.setD name v).drivers m =
      if m = name then (getDriver n.drivers m).map (fun _ => v) else getDriver n.drivers m :=
  getDriver_setDriverL n.drivers name m v

theorem getDriver_map_preserve (ds : List Driver) (g : Driver → Driver) (m : String)
    (hname : ∀ d, (g d).driver = d.driver) (hval : ∀ d, (g d).value = d.value) :
    getDriver (ds.map g) m = getDriver ds m := by
  induction ds with
  | nil => simp [getDriver]
  | cons d rest ih => by_cases h : d.driver = m <;> simp [getDriver, hname, hval, h, ih]

theorem lookupNode_updateNodeAt (ns : List (String × PNode)) (addr a : String)
    (f : PNode → PNode) :
    lookupNode (updateNodeAt ns addr f) a =
      if a = addr then (lookupNode ns a).map f else lookupNode ns a := by
  induction ns with
  | nil => by_cases h : a = addr <;> simp [updateNodeAt, lookupNode, h]
  | cons p rest ih =>
    by_cases hpa : p.1 = addr <;> by_cases hpA : p.1 = a <;> by_cases haa : a = addr <;>
      simp [updateNodeAt, lookupNode, hpa, hpA, haa] at ih ⊢ <;> simp_all

theorem lookupNode_map_value (ns : List (String × PNode)) (g : PNode → PNode) (a : String) :
    lookupNode (ns.map (fun p => (p.1, g p.2))) a = (lookupNode ns a).map g := by
  induction ns with
  | nil => simp [lookupNode]
  | cons p rest ih => by_cases h : p.1 = a <;> simp [lookupNode, h, ih]

theorem lookupNode_eq_none_iff (ns : List (String × PNode)) (a : String) :
    lookupNode ns a = none ↔ a ∉ ns.map Prod.fst := by
  induction ns with
  | nil => simp [lookupNode]
  | cons p rest ih =>
    by_cases h : p.1 = a
    · simp [lookupNode, h]
    · have h2 : a ≠ p.1 := fun hc => h hc.symm
      simp [lookupNode, h, ih, h2]

theorem lookupNode_append_left_none (ns ms : List (String × PNode)) (a : String)
    (h : lookupNode ns a = none) : lookupNode (ns ++ ms) a = lookupNode ms a := by
  induction ns with
  | nil => simp
  | cons p rest ih =>
    by_cases hp : p.1 = a
    · simp [lookupNode, hp] at h
    · simp only [List.cons_append, lookupNode, hp, if_false] at h ⊢
      exact ih h

theorem driverVals_set_temp_unit (n : PNode) (u : String) :
    driverVals (n.set_temp_unit u) = driverVals n := by
  simp only [driverVals, PNode.set_temp_unit, List.map_map]
  apply List.map_congr_left
  intro d _
  by_cases h : d.driver = "ST" ∨ d.driver = "CLISPH" ∨ d.driver = "CLISPC" <;>
    simp [Function.comp_apply, h]

theorem driverVals_migrateNode (u : String) (n : PNode) :
    driverVals (migrateNode u n) = driverVals n := by
  unfold migrateNode
  split_ifs with h
  · exact driverVals_set_temp_unit n u
  · rfl

theorem getDriver_set_temp_unit (n : PNode) (u : String) (m : String) :
    getDriver (n.set_temp_unit u).drivers m = getDriver n.drivers m := by
  unfold PNode.set_temp_unit
  exact getDriver_map_preserve n.drivers _ m (fun d => by split_ifs <;> rfl)
    (fun d => by split_ifs <;> rfl)

theorem getDriver_update_mode_drivers (n : PNode) (s : Option String) (m : String)
    (h1 : m ≠ "CLIMD") (h2 : m ≠ "CLIHCS") :
    getDriver (n.update_mode_drivers s).drivers m = getDriver n.drivers m := by
  unfold PNode.update_mode_drivers
  split_ifs <;> simp [PNode.setD, getDriver_setDriverL, h1, h2]

theorem applyEquipElement_of_none (tB : TempBlock) (ns : List (String × PNode))
    (e : String × Option String) (h : lookupNode ns e.1 = none) :
    applyEquipElement tB ns e = Except.ok ns := by
  unfold applyEquipElement
  rw [h]

theorem applyEquipElement_of_some (tB : TempBlock) (ns : List (String × PNode))
    (e : String × Option String) (n n2 : PNode) (h : lookupNode ns e.1 = some n)
    (he : elemUpdate tB e.1 e.2 n = Except.ok n2) :
    applyEquipElement tB ns e = Except.ok (updateNodeAt ns e.1 (fun _ => n2)) := by
  unfold applyEquipElement
  rw [h]
  simp only [he]

theorem applyEquipElement_of_err (tB : TempBlock) (ns : List (String × PNode))
    (e : String × Option String) (n : PNode) (er : String) (h : lookupNode ns e.1 = some n)
    (he : elemUpdate tB e.1 e.2 n = Except.error er) :
    applyEquipElement tB ns e = Except.error er := by
  unfold applyEquipElement
  rw [h]
  simp only [he]

theorem applyEquipElement_frame (tB : TempBlock) (ns ns2 : List (String × PNode))
    (e : String × Option String) (a : String) (ha : a ≠ e.1)
    (h : applyEquipElement tB ns e = Except.ok ns2) :
    lookupNode ns2 a = lookupNode ns a := by
  cases hl : lookupNode ns e.1 with
  | none =>
    rw [applyEquipElement_of_none tB ns e hl] at h
    cases h
    rfl
  | some n =>
    cases he : elemUpdate tB e.1 e.2 n with
    | error er =>
      rw [applyEquipElement_of_err tB ns e n er hl he] at h
      cases h
    | ok n2 =>
      rw [applyEquipElement_of_some tB ns e n n2 hl he] at h
      cases h
      rw [lookupNode_updateNodeAt]
      simp [ha]

theorem applyEquipElements_frame (tB : TempBlock) (es : List (String × Option String))
    (ns ns2 : List (String × PNode)) (a : String)
    (ha : a ∉ es.map Prod.fst)
    (h : applyEquipElements tB es ns = Except.ok ns2) :
    lookupNode ns2 a = lookupNode ns a := by
  induction es generalizing ns with
  | nil =>
    cases h
    rfl
  | cons e rest ih =>
    simp only [List.map_cons, List.mem_cons, not_or] at ha
    unfold applyEquipElements at h
    cases hh : applyEquipElement tB ns e with
    | error er =>
      rw [hh] at h
      exact absurd h (by simp)
    | ok ns1 =>
      rw [hh] at h
      simp only [] at h
      rw [ih ns1 ha.2 h, applyEquipElement_frame tB ns ns1 e a ha.1 hh]

theorem applyEquipElements_point (tB : TempBlock) (es : List (String × Option String))
    (ns ns2 : List (String × PNode)) (addr : String) (st : Option String) (n : PNode)
    (hnd : (es.map Prod.fst).Nodup)
    (hmem : (addr, st) ∈ es)
    (h : applyEquipElements tB es ns = Except.ok ns2)
    (hn : lookupNode ns addr = some n) :
    ∃ n2, elemUpdate tB addr st n = Except.ok n2 ∧ lookupNode ns2 addr = some n2 := by
  induction es generalizing ns with
  | nil => cases hmem
  | cons e rest ih =>
    simp only [List.map_cons, List.nodup_cons] at hnd
    rcases List.mem_cons.mp hmem with hhead | htail
    · subst hhead
      cases he : elemUpdate tB addr st n with
      | error er =>
        unfold applyEquipElements at h
        rw [applyEquipElement_of_err tB ns (addr, st) n er hn he] at h
        exact absurd h (by simp)
      | ok n2 =>
        refine ⟨n2, rfl, ?_⟩
        unfold applyEquipElements at h
        rw [applyEquipElement_of_some tB ns (addr, st) n n2 hn he] at h
        simp only [] at h
        have hfr : addr ∉ rest.map Prod.fst := hnd.1
        rw [applyEquipElements_frame tB rest _ ns2 addr hfr h, lookupNode_updateNodeAt]
        simp [hn]
    · have hne : e.1 ≠ addr := by
        intro hc
        exact hnd.1 (hc ▸ (List.mem_map.mpr ⟨(addr, st), htail, rfl⟩))
      unfold applyEquipElements at h
      cases hh : applyEquipElement tB ns e with
      | error er =>
        rw [hh] at h
        exact absurd h (by simp)
      | ok ns1 =>
        rw [hh] at h
        simp only [] at h
        have hn1 : lookupNode ns1 addr = some n := by
          rw [applyEquipElement_frame tB ns ns1 e addr (Ne.symm hne) hh, hn]
        exact ih ns1 hnd.2 htail h hn1

theorem getDriver_setD_self (n : PNode) (name : String) (v : Rat)
    (h : (getDriver n.drivers name).isSome) :
    getDriver (n.setD name v).drivers name = some v := by
  rw [getDriver_setD]
  obtain ⟨x, hx⟩ := Option.isSome_iff_exists.mp h
  simp [hx]

theorem getDriver_setD_ne (n : PNode) (name m : String) (v : Rat) (h : m ≠ name) :
    getDriver (n.setD name v).drivers m = getDriver n.drivers m := by
  rw [getDriver_setD]
  simp [h]

/-! ### Fixtures for concrete evaluations -/

/-- a controller in its factory state: template drivers, no nodes. -/
def ctrlEmpty : Controller :=
  { drivers := controllerDrivers, nodes := [], currentTempUnit := "F",
    ignoresolar := false, announcements := [] }

/-- a controller whose run-state driver GV0 currently holds 5. -/
def ctrlRun5 : Controller :=
  { drivers := [⟨"ST", 0, ISY_BOOL_UOM⟩, ⟨"GV0", 5, ISY_INDEX_UOM⟩, ⟨"GV1", 0, ISY_INDEX_UOM⟩,
      ⟨"GV2", 0, ISY_INDEX_UOM⟩, ⟨"BATLVL", 0, ISY_VOLT_UOM⟩, ⟨"CLITEMP", 0, ISY_TEMP_F_UOM⟩],
    nodes := [], currentTempUnit := "F", ignoresolar := false, announcements := [] }

/-- a controller tracking exactly one pool-heat TempControl node. -/
def ctrlPoolht : Controller :=
  { drivers := controllerDrivers, nodes := [("poolht", mkTempControl "poolht" "poolht" "F")],
    currentTempUnit := "F", ignoresolar := false, announcements := [] }

/-! ### Claims -/

/-- C1 counterexample: with run-state driver GV0 at 5, a poll whose
snapshot fetch returns no snapshot still rewrites GV0 to 0, so a
driver value is changed by the failed poll, contradicting the claim
that every attribute keeps its prior value. -/
theorem C1_counterexample :
    getDriver ctrlRun5.drivers "GV0" = some 5 ∧
    (update_node_states ctrlRun5 true none).map (fun c => getDriver c.drivers "GV0") =
      Except.ok (some 0) := by
  exact ⟨rfl, rfl⟩

/-- C1 (amended): if a periodic poll's snapshot fetch returns no
snapshot, `update_node_states` returns normally and leaves every
entity attribute and every Controller attribute other than GV0 at its
prior value; the Controller's GV0 (run-state) driver is set to 0. -/
theorem C1_failed_poll_frame (c : Controller) (report : Bool) :
    ∃ c2, update_node_states c report none = Except.ok c2 ∧
      c2.nodes = c.nodes ∧
      c2.currentTempUnit = c.currentTempUnit ∧
      c2.announcements = c.announcements ∧
      c2.ignoresolar = c.ignoresolar ∧
      getDriver c2.drivers "GV0" = (getDriver c.drivers "GV0").map (fun _ => 0) ∧
      (∀ m, m ≠ "GV0" → getDriver c2.drivers m = getDriver c.drivers m) :=
  ⟨{ c with drivers := setDriverL c.drivers "GV0" 0 }, rfl, rfl, rfl, rfl, rfl,
    by rw [getDriver_setDriverL]; simp,
    fun m hm => by rw [getDriver_setDriverL]; simp [hm]⟩

/-- C1 witness: the frame property evaluated on the factory
controller, extracting that GV1 is untouched by the failed poll. -/
theorem C1_witness :
    ∃ c2, update_node_states ctrlEmpty true none = Except.ok c2 ∧
      getDriver c2.drivers "GV1" = getDriver ctrlEmpty.drivers "GV1" := by
  obtain ⟨c2, h1, _, _, _, _, _, h7⟩ := C1_failed_poll_frame ctrlEmpty true
  exact ⟨c2, h1, h7 "GV1" (by decide)⟩

/-- C4 counterexample: routing a `poolsp` event on a controller with
no `poolht` node mutates nothing but returns handled = false, not
handled = true as the claim states. -/
theorem C4_counterexample :
    set_node_state ctrlEmpty "poolsp" "80" = Except.ok (ctrlEmpty, false) ∧
    set_node_state ctrlEmpty "poolsp" "80" ≠ Except.ok (ctrlEmpty, true) := by
  refine ⟨rfl, fun h => ?_⟩
  have h2 : (Except.ok (ctrlEmpty, false) : Except String (Controller × Bool)) =
      Except.ok (ctrlEmpty, true) :=
    (show set_node_state ctrlEmpty "poolsp" "80" =
      Except.ok (ctrlEmpty, false) from rfl).symm.trans h
  simp at h2

/-- C4 (amended): for every setpoint event name in
{poolsp, poolsp2, spasp}, routing the event when the corresponding
TempControl entity does not exist mutates nothing and returns
handled = false. -/
theorem C4_setpoint_missing_node (c : Controller) (v : String) :
    (lookupNode c.nodes "poolht" = none →
      set_node_state c "poolsp" v = Except.ok (c, false)) ∧
    (lookupNode c.nodes "poolht2" = none →
      set_node_state c "poolsp2" v = Except.ok (c, false)) ∧
    (lookupNode c.nodes "spaht" = none →
      set_node_state c "spasp" v = Except.ok (c, false)) := by
  refine ⟨fun h => ?_, fun h => ?_, fun h => ?_⟩ <;>
    · unfold set_node_state
      simp [h]

/-- C4 witness: a `poolsp2` event on the node-less factory controller
is a no-op returning handled = false. -/
theorem C4_witness :
    set_node_state ctrlEmpty "poolsp2" "80" = Except.ok (ctrlEmpty, false) :=
  (C4_setpoint_missing_node ctrlEmpty "80").2.1 rfl

/-- C7 counterexample: a `pooltemp` event whose value is not numeric
raises ValueError out of the router when a pool-heat entity exists, so
not every value is handled without fault. -/
theorem C7_counterexample :
    set_node_state ctrlPoolht "pooltemp" "abc" = Except.error "ValueError" := by
  rfl

/-- C7 (amended): for every value that parses as an integer, routing a
`pooltemp` delta event returns without fault, updates the
current-reading attribute ST of `poolht` when it exists and of
`poolht2` when it exists (both when both exist), and mutates nothing
(returning handled = false) when neither exists; a non-numeric value
reaching the int conversion instead raises. -/
theorem C7_pooltemp_fanout (c : Controller) (v : String) (x : Int)
    (hv : pythonInt v = some x) :
    ∃ c2 hd, set_node_state c "pooltemp" v = Except.ok (c2, hd) ∧
      (lookupNode c.nodes "poolht" = none → lookupNode c.nodes "poolht2" = none →
        c2 = c ∧ hd = false) ∧
      (∀ np, lookupNode c.nodes "poolht" = some np →
        lookupNode c2.nodes "poolht" =
          some (np.setD "ST" (x : Rat))) ∧
      (∀ np, lookupNode c.nodes "poolht2" = some np →
        lookupNode c2.nodes "poolht2" =
          some (np.setD "ST" (x : Rat))) := by
  have hA : asIntS v = Except.ok x := by unfold asIntS; rw [hv]
  unfold set_node_state
  cases h1 : lookupNode c.nodes "poolht" with
  | none =>
    cases h2 : lookupNode c.nodes "poolht2" with
    | none =>
      refine ⟨c, false, by simp [h1, h2], fun _ _ => ⟨rfl, rfl⟩, ?_, ?_⟩ <;>
        · intro np hnp
          simp [h1, h2] at hnp ⊢
    | some np2 =>
      refine ⟨{ c with nodes := updateNodeAt c.nodes "poolht2" (fun n => n.setD "ST" (x : Rat)) }, true, by simp [h1, h2, hA], ?_, ?_, ?_⟩
      · intro _ hc
        exact Option.noConfusion hc
      · intro np hnp
        exact Option.noConfusion hnp
      · intro np hnp
        cases hnp
        simp [lookupNode_updateNodeAt, h2]
  | some np1 =>
    cases h2 : lookupNode c.nodes "poolht2" with
    | none =>
      refine ⟨{ c with nodes := updateNodeAt c.nodes "poolht" (fun n => n.setD "ST" (x : Rat)) }, true, ?_, ?_, ?_, ?_⟩
      · have h2b : lookupNode (updateNodeAt c.nodes "poolht"
            (fun n => n.setD "ST" (x : Rat))) "poolht2" = none := by
          rw [lookupNode_updateNodeAt]
          simp [h2]
        simp [h1, h2, hA, h2b]
      · intro hc _
        exact Option.noConfusion hc
      · intro np hnp
        cases hnp
        simp [lookupNode_updateNodeAt, h1]
      · intro np hnp
        exact Option.noConfusion hnp
    | some np2 =>
      refine ⟨{ c with nodes := updateNodeAt (updateNodeAt c.nodes "poolht" (fun n => n.setD "ST" (x : Rat))) "poolht2" (fun n => n.setD "ST" (x : Rat)) }, true, ?_, ?_, ?_, ?_⟩
      · have h2b : lookupNode (updateNodeAt c.nodes "poolht"
            (fun n => n.setD "ST" (x : Rat))) "poolht2" = some np2 := by
          rw [lookupNode_updateNodeAt]
          simp [h2]
        simp [h1, h2, hA, h2b]
      · intro hc _
        exact Option.noConfusion hc
      · intro np hnp
        cases hnp
        simp [lookupNode_updateNodeAt, h1]
      · intro np hnp
        cases hnp
        simp [lookupNode_updateNodeAt, h2]

/-- C7 witness: the fan-out theorem evaluated on a controller with one
pool-heat node and the numeric value "90". -/
theorem C7_witness :
    ∃ c2 hd, set_node_state ctrlPoolht "pooltemp" "90" = Except.ok (c2, hd) ∧
      lookupNode c2.nodes "poolht" =
        some ((mkTempControl "poolht" "poolht" "F").setD "ST" (90 : Rat)) := by
  obtain ⟨c2, hd, heq, _, hup, _⟩ := C7_pooltemp_fanout ctrlPoolht "90" 90 (by decide)
  exact ⟨c2, hd, heq, hup _ rfl⟩

/-- C8 (confirmed): updating the mode drivers of a TempControl from a
status code maps "0" to (CLIMD 0, CLIHCS 0), "1" to (1, 0), "2" to
(1, 1), and any other code leaves the node entirely unchanged. -/
theorem C8_mode_derivation (n : PNode) :
    ((getDriver n.drivers "CLIMD").isSome → (getDriver n.drivers "CLIHCS").isSome →
      (getDriver (n.update_mode_drivers (some "0")).drivers "CLIMD" = some 0 ∧
       getDriver (n.update_mode_drivers (some "0")).drivers "CLIHCS" = some 0) ∧
      (getDriver (n.update_mode_drivers (some "1")).drivers "CLIMD" = some 1 ∧
       getDriver (n.update_mode_drivers (some "1")).drivers "CLIHCS" = some 0) ∧
      (getDriver (n.update_mode_drivers (some "2")).drivers "CLIMD" = some 1 ∧
       getDriver (n.update_mode_drivers (some "2")).drivers "CLIHCS" = some 1)) ∧
    (∀ s, s ≠ "0" → s ≠ "1" → s ≠ "2" → n.update_mode_drivers (some s) = n) := by
  constructor
  · intro hMD hHCS
    have e0 : n.update_mode_drivers (some "0") = (n.setD "CLIMD" 0).setD "CLIHCS" 0 := rfl
    have e1 : n.update_mode_drivers (some "1") = (n.setD "CLIMD" 1).setD "CLIHCS" 0 := rfl
    have e2 : n.update_mode_drivers (some "2") = (n.setD "CLIMD" 1).setD "CLIHCS" 1 := rfl
    have hp0 : (getDriver (n.setD "CLIMD" (0 : Rat)).drivers "CLIHCS").isSome := by
      rw [getDriver_setD_ne n "CLIMD" "CLIHCS" _ (by decide)]
      exact hHCS
    have hp1 : (getDriver (n.setD "CLIMD" (1 : Rat)).drivers "CLIHCS").isSome := by
      rw [getDriver_setD_ne n "CLIMD" "CLIHCS" _ (by decide)]
      exact hHCS
    refine ⟨⟨?_, ?_⟩, ⟨?_, ?_⟩, ⟨?_, ?_⟩⟩
    · rw [e0, getDriver_setD_ne _ "CLIHCS" "CLIMD" _ (by decide)]
      exact getDriver_setD_self n "CLIMD" _ hMD
    · rw [e0]
      exact getDriver_setD_self _ "CLIHCS" _ hp0
    · rw [e1, getDriver_setD_ne _ "CLIHCS" "CLIMD" _ (by decide)]
      exact getDriver_setD_self n "CLIMD" _ hMD
    · rw [e1]
      exact getDriver_setD_self _ "CLIHCS" _ hp1
    · rw [e2, getDriver_setD_ne _ "CLIHCS" "CLIMD" _ (by decide)]
      exact getDriver_setD_self n "CLIMD" _ hMD
    · rw [e2]
      exact getDriver_setD_self _ "CLIHCS" _ hp1
  · intro s h0 h1 h2
    unfold PNode.update_mode_drivers
    simp [h0, h1, h2]

/-- C8 witness: the mode derivation evaluated on a freshly constructed
pool-heat TempControl node, for code "2" and for the unmapped code
"5". -/
theorem C8_witness :
    getDriver ((mkTempControl "poolht" "poolht" "F").update_mode_drivers
      (some "2")).drivers "CLIMD" = some 1 ∧
    (mkTempControl "poolht" "poolht" "F").update_mode_drivers (some "5") =
      mkTempControl "poolht" "poolht" "F" := by
  obtain ⟨h1, h2⟩ := C8_mode_derivation (mkTempControl "poolht" "poolht" "F")
  exact ⟨(h1 (by decide) (by decide)).2.2.1, h2 "5" (by decide) (by decide) (by decide)⟩

/-- C10 (confirmed): routing a delta event named "model" or "dip"
returns handled = true while mutating nothing, for every value. -/
theorem C10_model_dip_noop (c : Controller) (v : String) :
    set_node_state c "model" v = Except.ok (c, true) ∧
    set_node_state c "dip" v = Except.ok (c, true) := by
  constructor
  · rfl
  · unfold set_node_state
    simp

theorem change_temp_units_nodes (c : Controller) (u : String) (a : String) :
    lookupNode (change_temp_units c u).nodes a = (lookupNode c.nodes a).map (migrateNode u) := by
  unfold change_temp_units Controller.set_temp_unit
  exact lookupNode_map_value c.nodes (migrateNode u) a

theorem update_node_states_nodes_inv (c : Controller) (report : Bool) (snap : Snapshot)
    (c2 : Controller) (tempUnit : String)
    (htu : snap.temp.tempunits = some tempUnit)
    (hEq : update_node_states c report (some snap) = Except.ok c2) :
    applyEquipElements snap.temp snap.equipment (unitSync c tempUnit).nodes =
      Except.ok c2.nodes := by
  have hEq1 : update_node_states_snap c snap = Except.ok c2 := hEq
  unfold update_node_states_snap at hEq1
  rw [htu] at hEq1
  have hEq2 : update_snap_core c snap tempUnit = Except.ok c2 := hEq1
  unfold update_snap_core at hEq2
  cases h1 : asInt snap.system.runstate with
  | error e => rw [h1] at hEq2; exact Except.noConfusion hEq2
  | ok runstate =>
  rw [h1] at hEq2
  cases h2 : asInt snap.system.opmode with
  | error e => rw [h2] at hEq2; exact Except.noConfusion hEq2
  | ok opmode =>
  rw [h2] at hEq2
  cases h3 : asInt snap.system.lowbat with
  | error e => rw [h3] at hEq2; exact Except.noConfusion hEq2
  | ok lowbat =>
  rw [h3] at hEq2
  cases h4 : asFloat snap.system.vbat with
  | error e => rw [h4] at hEq2; exact Except.noConfusion hEq2
  | ok vbat =>
  rw [h4] at hEq2
  cases h5 : asInt snap.temp.airtemp with
  | error e => rw [h5] at hEq2; exact Except.noConfusion hEq2
  | ok airtemp =>
  rw [h5] at hEq2
  cases h6 : applyEquipElements snap.temp snap.equipment (unitSync c tempUnit).nodes with
  | error e => rw [h6] at hEq2; exact Except.noConfusion hEq2
  | ok ns =>
    rw [h6] at hEq2
    have h7 := Except.ok.inj hEq2
    rw [← h7]

/-- a pool-heat node whose current reading is 75 and setpoint 85. -/
def nodePool75 : PNode :=
  ((mkTempControl "poolht" "poolht" "F").setD "ST" 75).setD "CLISPH" 85

/-- a controller tracking that node. -/
def ctrlPool75 : Controller :=
  { drivers := controllerDrivers, nodes := [("poolht", nodePool75)],
    currentTempUnit := "F", ignoresolar := false, announcements := [] }

/-- a well-formed snapshot whose only equipment element is a blank
`poolht`. -/
def snapBlankPool : Snapshot :=
  { system := { runstate := some "1", opmode := some "0", lowbat := some "0", vbat := some "100" },
    temp := { tempunits := some "F", airtemp := some "70", poolsp := some "80",
              poolsp2 := some "0", spasp := some "0", pooltemp := some "70",
              spatemp := some "0", solartemp := some "0" },
    equipment := [("poolht", none)] }

/-- a well-formed snapshot whose equipment omits `poolht` entirely. -/
def snapNoPool : Snapshot :=
  { system := { runstate := some "1", opmode := some "0", lowbat := some "0", vbat := some "100" },
    temp := { tempunits := some "F", airtemp := some "70", poolsp := some "80",
              poolsp2 := some "0", spasp := some "0", pooltemp := some "70",
              spatemp := some "0", solartemp := some "0" },
    equipment := [("pump1", some "1")] }

/-- the controller state produced by reconciling `ctrlPoolht` against
`snapNoPool`. -/
def c2OfNoPool : Controller :=
  match update_node_states ctrlPoolht true (some snapNoPool) with
  | Except.ok c => c
  | Except.error _ => ctrlPoolht

/-- C2 counterexample: with the pool-heat entity holding reading 75,
a snapshot whose `poolht` equipment element is present but blank still
overwrites the entity's current reading with 70 taken from the temp
block, so a blank reading is not left at its last-known value. -/
theorem C2_counterexample :
    (update_node_states ctrlPool75 true (some snapBlankPool)).map
        (fun c => (lookupNode c.nodes "poolht").map (fun n => getDriver n.drivers "ST")) =
      Except.ok (some (some 70)) ∧
    (lookupNode ctrlPool75.nodes "poolht").map (fun n => getDriver n.drivers "ST") =
      some (some 75) := by
  exact ⟨rfl, rfl⟩

/-- C2 (amended): during reconciliation, every entity whose address is
absent from the snapshot's equipment element list keeps all of its
attribute values; an entity present with a blank value is not
protected (a blank TempControl element still has its setpoint and
current-reading overwritten from the temp block, and a blank Equipment
element makes the pass raise). -/
theorem C2_absent_unchanged (c : Controller) (report : Bool) (snap : Snapshot)
    (c2 : Controller) (addr : String)
    (hEq : update_node_states c report (some snap) = Except.ok c2)
    (hAbs : addr ∉ snap.equipment.map Prod.fst) :
    (lookupNode c2.nodes addr).map driverVals = (lookupNode c.nodes addr).map driverVals := by
  cases htu : snap.temp.tempunits with
  | none =>
    have hEq2 : update_node_states_snap c snap = Except.ok c2 := hEq
    unfold update_node_states_snap at hEq2
    rw [htu] at hEq2
    exact Except.noConfusion hEq2
  | some tempUnit =>
    have hinv := update_node_states_nodes_inv c report snap c2 tempUnit htu hEq
    have hfr := applyEquipElements_frame snap.temp snap.equipment _ _ addr hAbs hinv
    rw [hfr]
    unfold unitSync
    split_ifs with h
    · rw [change_temp_units_nodes]
      cases hl : lookupNode c.nodes addr <;> simp [driverVals_migrateNode]
    · rfl

/-- C2 witness: the frame property evaluated on a concrete controller
with a pool-heat node and a snapshot that omits it. -/
theorem C2_witness :
    (lookupNode c2OfNoPool.nodes "poolht").map driverVals =
      (lookupNode ctrlPoolht.nodes "poolht").map driverVals := by
  exact C2_absent_unchanged ctrlPoolht true snapNoPool c2OfNoPool "poolht" rfl (by decide)

/-- a controller tracking one plain equipment node `pump1`. -/
def ctrlPump : Controller :=
  { drivers := controllerDrivers, nodes := [("pump1", mkEquipment "pump1" "pump1")],
    currentTempUnit := "F", ignoresolar := false, announcements := [] }

/-- a well-formed snapshot whose only equipment element is a blank
`pump1`. -/
def snapBlankPump : Snapshot :=
  { system := { runstate := some "1", opmode := some "0", lowbat := some "0", vbat := some "100" },
    temp := { tempunits := some "F", airtemp := some "70", poolsp := some "80",
              poolsp2 := some "0", spasp := some "0", pooltemp := some "70",
              spatemp := some "0", solartemp := some "0" },
    equipment := [("pump1", none)] }

/-- C3 counterexample: the delta router raises ValueError past its
boundary on a non-numeric `runstate` value, and the reconcile pass
raises TypeError on a blank equipment value for a live Equipment node,
so neither path absorbs every failure. -/
theorem C3_counterexample :
    set_node_state ctrlEmpty "runstate" "abc" = Except.error "ValueError" ∧
    update_node_states ctrlPump true (some snapBlankPump) = Except.error "TypeError" := by
  exact ⟨rfl, rfl⟩

/-! Branch equations for the delta router, one per recognised element
name, each holding definitionally. -/

theorem sns_runstate (c : Controller) (v : String) :
    set_node_state c "runstate" v =
      match asIntS v with
      | Except.error e => Except.error e
      | Except.ok n =>
        Except.ok ({ c with drivers := setDriverL c.drivers "GV0" (n : Rat) }, true) := rfl

theorem sns_opmode (c : Controller) (v : String) :
    set_node_state c "opmode" v =
      match asIntS v with
      | Except.error e => Except.error e
      | Except.ok n =>
        Except.ok ({ c with drivers := setDriverL c.drivers "GV1" (n : Rat) }, true) := rfl

theorem sns_vbat (c : Controller) (v : String) :
    set_node_state c "vbat" v =
      match asFloatS v with
      | Except.error e => Except.error e
      | Except.ok n =>
        Except.ok ({ c with drivers := setDriverL c.drivers "BATLVL" (n * VBAT_CONST) }, true) :=
  rfl

theorem sns_lowbat (c : Controller) (v : String) :
    set_node_state c "lowbat" v =
      match asIntS v with
      | Except.error e => Except.error e
      | Except.ok n =>
        Except.ok ({ c with drivers := setDriverL c.drivers "GV2" (n : Rat) }, true) := rfl

theorem sns_airtemp (c : Controller) (v : String) :
    set_node_state c "airtemp" v =
      match asIntS v with
      | Except.error e => Except.error e
      | Except.ok n =>
        Except.ok ({ c with drivers := setDriverL c.drivers "CLITEMP" (n : Rat) }, true) := rfl

theorem sns_poolsp (c : Controller) (v : String) :
    set_node_state c "poolsp" v =
      (if (lookupNode c.nodes "poolht").isSome then
        match asIntS v with
        | Except.error e => Except.error e
        | Except.ok n =>
          Except.ok ({ c with
            nodes := updateNodeAt c.nodes "poolht" (fun nd => nd.setD "CLISPH" (n : Rat)) },
            true)
      else Except.ok (c, false)) := rfl

theorem sns_poolsp2 (c : Controller) (v : String) :
    set_node_state c "poolsp2" v =
      (if (lookupNode c.nodes "poolht2").isSome then
        match asIntS v with
        | Except.error e => Except.error e
        | Except.ok n =>
          Except.ok ({ c with
            nodes := updateNodeAt c.nodes "poolht2" (fun nd => nd.setD "CLISPH" (n : Rat)) },
            true)
      else Except.ok (c, false)) := rfl

theorem sns_spasp (c : Controller) (v : String) :
    set_node_state c "spasp" v =
      (if (lookupNode c.nodes "spaht").isSome then
        match asIntS v with
        | Except.error e => Except.error e
        | Except.ok n =>
          Except.ok ({ c with
            nodes := updateNodeAt c.nodes "spaht" (fun nd => nd.setD "CLISPH" (n : Rat)) },
            true)
      else Except.ok (c, false)) := rfl

theorem sns_spatemp (c : Controller) (v : String) :
    set_node_state c "spatemp" v =
      (if (lookupNode c.nodes "spaht").isSome then
        match asIntS v with
        | Except.error e => Except.error e
        | Except.ok n =>
          Except.ok ({ c with
            nodes := updateNodeAt c.nodes "spaht" (fun nd => nd.setD "ST" (n : Rat)) },
            true)
      else Except.ok (c, false)) := rfl

theorem sns_solartemp (c : Controller) (v : String) :
    set_node_state c "solartemp" v =
      (if (lookupNode c.nodes "solarht").isSome then
        match asIntS v with
        | Except.error e => Except.error e
        | Except.ok n =>
          Except.ok ({ c with
            nodes := updateNodeAt c.nodes "solarht" (fun nd => nd.setD "ST" (n : Rat)) },
            true)
      else Except.ok (c, false)) := rfl

theorem sns_pooltemp (c : Controller) (v : String) :
    set_node_state c "pooltemp" v =
      (match (if (lookupNode c.nodes "poolht").isSome then
          match asIntS v with
          | Except.error e => Except.error e
          | Except.ok n =>
            Except.ok ({ c with
              nodes := updateNodeAt c.nodes "poolht" (fun nd => nd.setD "ST" (n : Rat)) },
              true)
        else Except.ok (c, false)) with
      | Except.error e => Except.error e
      | Except.ok (c1, h1) =>
        if (lookupNode c1.nodes "poolht2").isSome then
          match asIntS v with
          | Except.error e => Except.error e
          | Except.ok n =>
            Except.ok ({ c1 with
              nodes := updateNodeAt c1.nodes "poolht2" (fun nd => nd.setD "ST" (n : Rat)) },
              true)
        else Except.ok (c1, h1)) := rfl

theorem sns_tempunits (c : Controller) (v : String) :
    set_node_state c "tempunits" v =
      Except.ok ((if c.currentTempUnit ≠ v then change_temp_units c v else c), true) := rfl

theorem sns_mode_addr (c : Controller) (element v : String)
    (h : element = "poolht" ∨ element = "poolht2" ∨ element = "spaht" ∨ element = "solarht") :
    set_node_state c element v =
      (if (lookupNode c.nodes element).isSome then
        Except.ok ({ c with
          nodes := updateNodeAt c.nodes element
            (fun n => n.update_mode_drivers (some v)) }, true)
      else Except.ok (c, false)) := by
  rcases h with h | h | h | h <;> subst h <;> rfl

theorem sns_fallback (c : Controller) (element v : String)
    (h1 : element ≠ "runstate") (h2 : element ≠ "model") (h3 : element ≠ "dip")
    (h4 : element ≠ "opmode") (h5 : element ≠ "vbat") (h6 : element ≠ "lowbat")
    (h7 : element ≠ "poolsp") (h8 : element ≠ "poolsp2") (h9 : element ≠ "spasp")
    (h10 : element ≠ "pooltemp") (h11 : element ≠ "spatemp") (h12 : element ≠ "airtemp")
    (h13 : element ≠ "solartemp") (h14 : element ≠ "tempunits")
    (h15 : ¬(element = "poolht" ∨ element = "poolht2" ∨ element = "spaht" ∨
      element = "solarht")) :
    set_node_state c element v =
      (if (lookupNode c.nodes element).isSome then
        match asIntS v with
        | Except.error e => Except.error e
        | Except.ok n =>
          Except.ok ({ c with
            nodes := updateNodeAt c.nodes element (fun nd => nd.setD "ST" (n : Rat)) },
            true)
      else Except.ok (c, false)) := by
  unfold set_node_state
  rw [if_neg h1, if_neg h2, if_neg h3, if_neg h4, if_neg h5, if_neg h6, if_neg h7,
    if_neg h8, if_neg h9, if_neg h10, if_neg h11, if_neg h12, if_neg h13, if_neg h14,
    if_neg h15]

/-- C3 (amended): the delta router returns normally on every input
whose raw value is numeric (parses both as int and as float); a
non-numeric raw value reaching a numeric conversion, or a blank
equipment value for a live Equipment node during reconciliation,
raises past the boundary instead of being absorbed. -/
theorem C3_router_total_on_numeric (c : Controller) (element v : String) (x : Int) (q : Rat)
    (hi : pythonInt v = some x) (hf : pythonFloat v = some q) :
    ∃ r, set_node_state c element v = Except.ok r := by
  have hA : asIntS v = Except.ok x := by unfold asIntS; rw [hi]
  have hB : asFloatS v = Except.ok q := by unfold asFloatS; rw [hf]
  by_cases h1 : element = "runstate"
  · subst h1; rw [sns_runstate, hA]; exact ⟨_, rfl⟩
  by_cases h2 : element = "model"
  · subst h2; exact ⟨_, rfl⟩
  by_cases h3 : element = "dip"
  · subst h3
    refine ⟨(c, true), ?_⟩
    unfold set_node_state
    simp
  by_cases h4 : element = "opmode"
  · subst h4; rw [sns_opmode, hA]; exact ⟨_, rfl⟩
  by_cases h5 : element = "vbat"
  · subst h5; rw [sns_vbat, hB]; exact ⟨_, rfl⟩
  by_cases h6 : element = "lowbat"
  · subst h6; rw [sns_lowbat, hA]; exact ⟨_, rfl⟩
  by_cases h7 : element = "poolsp"
  · subst h7; rw [sns_poolsp, hA]; split_ifs <;> exact ⟨_, rfl⟩
  by_cases h8 : element = "poolsp2"
  · subst h8; rw [sns_poolsp2, hA]; split_ifs <;> exact ⟨_, rfl⟩
  by_cases h9 : element = "spasp"
  · subst h9; rw [sns_spasp, hA]; split_ifs <;> exact ⟨_, rfl⟩
  by_cases h10 : element = "pooltemp"
  · subst h10
    rw [sns_pooltemp, hA]
    by_cases hp : (lookupNode c.nodes "poolht").isSome
    · rw [if_pos hp]
      dsimp only
      split_ifs <;> exact ⟨_, rfl⟩
    · rw [if_neg hp]
      dsimp only
      split_ifs <;> exact ⟨_, rfl⟩
  by_cases h11 : element = "spatemp"
  · subst h11; rw [sns_spatemp, hA]; split_ifs <;> exact ⟨_, rfl⟩
  by_cases h12 : element = "airtemp"
  · subst h12; rw [sns_airtemp, hA]; exact ⟨_, rfl⟩
  by_cases h13 : element = "solartemp"
  · subst h13; rw [sns_solartemp, hA]; split_ifs <;> exact ⟨_, rfl⟩
  by_cases h14 : element = "tempunits"
  · subst h14; rw [sns_tempunits]; exact ⟨_, rfl⟩
  by_cases h15 : element = "poolht" ∨ element = "poolht2" ∨ element = "spaht" ∨
    element = "solarht"
  · rw [sns_mode_addr c element v h15]; split_ifs <;> exact ⟨_, rfl⟩
  · rw [sns_fallback c element v h1 h2 h3 h4 h5 h6 h7 h8 h9 h10 h11 h12 h13 h14 h15, hA]
    split_ifs <;> exact ⟨_, rfl⟩

/-- C3 witness: the router applied to a numeric `runstate` event on
the factory controller returns normally. -/
theorem C3_witness :
    ∃ r, set_node_state ctrlEmpty "runstate" "5" = Except.ok r :=
  C3_router_total_on_numeric ctrlEmpty "runstate" "5" 5 5 (by decide) (by decide)

theorem getUom_map_retag (ds : List Driver) (p : String → Prop) [DecidablePred p] (u2 : Nat)
    (m : String) :
    getUom (ds.map (fun d => if p d.driver then { d with uom := u2 } else d)) m =
      if p m then (getUom ds m).map (fun _ => u2) else getUom ds m := by
  induction ds with
  | nil => split_ifs <;> simp [getUom]
  | cons d rest ih =>
    by_cases hdm : d.driver = m
    · subst hdm
      by_cases hp : p d.driver <;> simp [getUom, hp]
    · by_cases hp2 : p d.driver <;> by_cases hpm : p m <;>
        simp [getUom, hdm, hp2, hpm, ih]

theorem getUom_set_temp_unit (n : PNode) (u : String) (m : String) :
    getUom (n.set_temp_unit u).drivers m =
      if m = "ST" ∨ m = "CLISPH" ∨ m = "CLISPC" then
        (getUom n.drivers m).map (fun _ => uomFor u)
      else getUom n.drivers m := by
  unfold PNode.set_temp_unit
  exact getUom_map_retag n.drivers (fun s => s = "ST" ∨ s = "CLISPH" ∨ s = "CLISPC")
    (uomFor u) m

theorem getUom_ctrl_set_temp_unit (c : Controller) (u : String) (m : String) :
    getUom (c.set_temp_unit u).drivers m =
      if m = "CLITEMP" then (getUom c.drivers m).map (fun _ => uomFor u)
      else getUom c.drivers m := by
  unfold Controller.set_temp_unit
  exact getUom_map_retag c.drivers (fun s => s = "CLITEMP") (uomFor u) m

/-- C9 (confirmed): migrating to the currently-active unit is a no-op
(the delta-path guard skips the migration entirely); and
`change_temp_units` retags the temperature-attribute metadata (unit
tag of ST/CLISPH/CLISPC and the node-definition id) of every live
TempControl node and the Controller's own CLITEMP attribute,
re-announces each migrated node and the controller, caches the new
unit, and leaves every stored attribute value unchanged. -/
theorem C9_unit_migration (c : Controller) (u : String) :
    set_node_state c "tempunits" c.currentTempUnit = Except.ok (c, true) ∧
    (change_temp_units c u).currentTempUnit = u ∧
    (∀ m, getDriver (change_temp_units c u).drivers m = getDriver c.drivers m) ∧
    getUom (change_temp_units c u).drivers "CLITEMP" =
      (getUom c.drivers "CLITEMP").map (fun _ => uomFor u) ∧
    (∀ a n, lookupNode c.nodes a = some n →
      (n.id = "TEMP_CONTROL" ∨ n.id = "TEMP_CONTROL_C") →
      lookupNode (change_temp_units c u).nodes a = some (n.set_temp_unit u) ∧
      driverVals (n.set_temp_unit u) = driverVals n ∧
      (n.set_temp_unit u).id = tcId u ∧
      (∀ m, (m = "ST" ∨ m = "CLISPH" ∨ m = "CLISPC") →
        getUom (n.set_temp_unit u).drivers m = (getUom n.drivers m).map (fun _ => uomFor u))) ∧
    (∀ a n, lookupNode c.nodes a = some n →
      ¬(n.id = "TEMP_CONTROL" ∨ n.id = "TEMP_CONTROL_C") →
      lookupNode (change_temp_units c u).nodes a = some n) ∧
    (change_temp_units c u).announcements = c.announcements ++
      (c.nodes.filterMap (fun p =>
        if p.2.id = "TEMP_CONTROL" ∨ p.2.id = "TEMP_CONTROL_C" then some p.1 else none)) ++
      ["controller"] := by
  refine ⟨?_, rfl, ?_, ?_, ?_, ?_, ?_⟩
  · rw [sns_tempunits]
    simp
  · intro m
    unfold change_temp_units Controller.set_temp_unit
    exact getDriver_map_preserve c.drivers _ m (fun d => by split_ifs <;> rfl)
      (fun d => by split_ifs <;> rfl)
  · unfold change_temp_units
    rw [getUom_ctrl_set_temp_unit]
    simp
  · intro a n hn hid
    refine ⟨?_, driverVals_set_temp_unit n u, rfl, ?_⟩
    · rw [change_temp_units_nodes, hn]
      simp [migrateNode, hid]
    · intro m hm
      rw [getUom_set_temp_unit, if_pos hm]
  · intro a n hn hid
    rw [change_temp_units_nodes, hn]
    simp [migrateNode, hid]
  · unfold change_temp_units Controller.set_temp_unit
    rfl

/-- C9 witness: the migration evaluated on a controller with one
pool-heat node, moving from Fahrenheit to Celsius, plus the no-op
guard on the factory controller. -/
theorem C9_witness :
    set_node_state ctrlEmpty "tempunits" "F" = Except.ok (ctrlEmpty, true) ∧
    (change_temp_units ctrlPoolht "C").currentTempUnit = "C" ∧
    lookupNode (change_temp_units ctrlPoolht "C").nodes "poolht" =
      some ((mkTempControl "poolht" "poolht" "F").set_temp_unit "C") ∧
    driverVals ((mkTempControl "poolht" "poolht" "F").set_temp_unit "C") =
      driverVals (mkTempControl "poolht" "poolht" "F") := by
  obtain ⟨-, h2, -, -, h5, -, -⟩ := C9_unit_migration ctrlPoolht "C"
  obtain ⟨ha, hb, -, -⟩ := h5 "poolht" (mkTempControl "poolht" "poolht" "F") rfl (Or.inl rfl)
  exact ⟨(C9_unit_migration ctrlEmpty "C").1, h2, ha, hb⟩

theorem discoverNode_address (u a : String) : (discoverNode u a).address = a := by
  unfold discoverNode mkTempControl mkEquipment PNode.set_temp_unit
  split_ifs <;> rfl

theorem addNode_fresh (ns : List (String × PNode)) (n : PNode)
    (h : lookupNode ns n.address = none) : addNode ns n = ns ++ [(n.address, n)] := by
  unfold addNode
  rw [h]
  rfl

theorem discoverFold_char (u : String) (ig : Bool) (es : List (String × Option String))
    (ns : List (String × PNode))
    (hnd : (es.map Prod.fst).Nodup)
    (hfresh : ∀ e ∈ es, lookupNode ns e.1 = none) :
    discoverFold u ig es ns =
      ns ++ (es.filter (discoverQualifies ig)).map (fun e => (e.1, discoverNode u e.1)) := by
  induction es generalizing ns with
  | nil => simp [discoverFold]
  | cons e rest ih =>
    simp only [List.map_cons, List.nodup_cons] at hnd
    have hstep : discoverFold u ig (e :: rest) ns =
        discoverFold u ig rest
          (if discoverQualifies ig e then addNode ns (discoverNode u e.1) else ns) := rfl
    by_cases hq : discoverQualifies ig e
    · rw [hstep, if_pos hq]
      have hfe : lookupNode ns e.1 = none := hfresh e (List.mem_cons_self e rest)
      have hadd : addNode ns (discoverNode u e.1) = ns ++ [(e.1, discoverNode u e.1)] := by
        have h2 := addNode_fresh ns (discoverNode u e.1)
          (by rw [discoverNode_address]; exact hfe)
        rw [discoverNode_address] at h2
        exact h2
      have hfresh2 : ∀ e2 ∈ rest,
          lookupNode (ns ++ [(e.1, discoverNode u e.1)]) e2.1 = none := by
        intro e2 he2
        have hne : e.1 ≠ e2.1 := by
          intro hc
          exact hnd.1 (hc ▸ List.mem_map.mpr ⟨e2, he2, rfl⟩)
        rw [lookupNode_append_left_none _ _ _ (hfresh e2 (List.mem_cons_of_mem e he2))]
        simp [lookupNode, hne]
      rw [hadd, ih _ hnd.2 hfresh2, List.filter_cons_of_pos hq]
      simp [List.append_assoc]
    · rw [hstep, if_neg hq]
      have hfresh2 : ∀ e2 ∈ rest, lookupNode ns e2.1 = none :=
        fun e2 he2 => hfresh e2 (List.mem_cons_of_mem e he2)
      rw [ih _ hnd.2 hfresh2, List.filter_cons_of_neg (by simpa using hq)]

/-- C5 (confirmed): discovery creates exactly one entity per equipment
element with a non-blank value (none for `solarht` when the
ignore-solar flag is set, even if its value is non-blank), a
TempControl node for the four thermal-zone addresses and an Equipment
node for every other address. -/
theorem C5_discovery (c : Controller) (snap : Snapshot) (tempUnit : String) (c2 : Controller)
    (htu : snap.temp.tempunits = some tempUnit)
    (hempty : c.nodes = [])
    (hnd : (snap.equipment.map Prod.fst).Nodup)
    (hEq : discover_nodes c (some snap) = Except.ok c2) :
    c2.nodes = (snap.equipment.filter (discoverQualifies c.ignoresolar)).map
        (fun e => (e.1, discoverNode tempUnit e.1)) ∧
    c2.nodes.length = (snap.equipment.filter (discoverQualifies c.ignoresolar)).length ∧
    (∀ p ∈ c2.nodes,
      p.2.id = if isTempControlAddr p.1 then tcId tempUnit else "EQUIPMENT") ∧
    (c.ignoresolar = true → lookupNode c2.nodes "solarht" = none) := by
  have hEq2 : (match snap.temp.tempunits with
      | none => (Except.error "AttributeError" : Except String Controller)
      | some tempUnit => Except.ok (discover_with_unit c snap tempUnit)) = Except.ok c2 := hEq
  rw [htu] at hEq2
  have hc2 : c2 = discover_with_unit c snap tempUnit := (Except.ok.inj hEq2).symm
  subst hc2
  have hig : (if tempUnit ≠ c.currentTempUnit then c.set_temp_unit tempUnit
      else c).ignoresolar = c.ignoresolar := by
    split_ifs <;> rfl
  have hns : (if tempUnit ≠ c.currentTempUnit then c.set_temp_unit tempUnit
      else c).nodes = c.nodes := by
    split_ifs <;> rfl
  have hchar : (discover_with_unit c snap tempUnit).nodes =
      (snap.equipment.filter (discoverQualifies c.ignoresolar)).map
        (fun e => (e.1, discoverNode tempUnit e.1)) := by
    show discoverFold tempUnit
        (if tempUnit ≠ c.currentTempUnit then c.set_temp_unit tempUnit else c).ignoresolar
        snap.equipment
        (if tempUnit ≠ c.currentTempUnit then c.set_temp_unit tempUnit else c).nodes = _
    rw [hig, hns, hempty,
      discoverFold_char tempUnit c.ignoresolar snap.equipment [] hnd (fun e _ => rfl)]
    simp
  refine ⟨hchar, ?_, ?_, ?_⟩
  · rw [hchar, List.length_map]
  · intro p hp
    rw [hchar] at hp
    obtain ⟨e, he, rfl⟩ := List.mem_map.mp hp
    by_cases hta : isTempControlAddr e.1
    · simp only [hta, if_true]
      simp [discoverNode, hta, mkTempControl, PNode.set_temp_unit]
    · simp only [hta]
      simp [discoverNode, hta, mkEquipment]
  · intro hig2
    rw [lookupNode_eq_none_iff, hchar]
    intro hmem
    simp only [List.map_map, List.mem_map, Function.comp_apply] at hmem
    obtain ⟨e, he, hfst⟩ := hmem
    have hq := (List.mem_filter.mp he).2
    unfold discoverQualifies at hq
    rw [hfst, hig2] at hq
    simp at hq

/-- a factory controller with the ignore-solar flag set. -/
def ctrlIgn : Controller :=
  { drivers := controllerDrivers, nodes := [], currentTempUnit := "F",
    ignoresolar := true, announcements := [] }

/-- a snapshot reporting a non-blank solar-heat zone along with a pool
zone and a pump. -/
def snapSolar : Snapshot :=
  { system := { runstate := some "1", opmode := some "0", lowbat := some "0", vbat := some "100" },
    temp := { tempunits := some "F", airtemp := some "70", poolsp := some "85",
              poolsp2 := some "0", spasp := some "0", pooltemp := some "84",
              spatemp := some "0", solartemp := some "90" },
    equipment := [("poolht", some "1"), ("solarht", some "0"), ("pump1", some "1")] }

/-- the controller state produced by discovery on that snapshot. -/
def c2Discover : Controller :=
  match discover_nodes ctrlIgn (some snapSolar) with
  | Except.ok c => c
  | Except.error _ => ctrlIgn

/-- C5 witness: discovery on the ignore-solar controller creates
exactly the pool-heat TempControl and the pump Equipment node and
skips the non-blank solar zone. -/
theorem C5_witness :
    c2Discover.nodes =
      [("poolht", discoverNode "F" "poolht"), ("pump1", discoverNode "F" "pump1")] ∧
    lookupNode c2Discover.nodes "solarht" = none := by
  obtain ⟨h1, -, -, h4⟩ := C5_discovery ctrlIgn snapSolar "F" c2Discover rfl rfl
    (by decide) rfl
  constructor
  · rw [h1]
    rfl
  · exact h4 rfl

theorem elemUpdate_tc (tB : TempBlock) (addr : String) (st : Option String) (n : PNode)
    (sp ct : Int) (hA : isTempControlAddr addr = true)
    (hsp : asInt (setpointSrc tB addr) = Except.ok sp)
    (hct : asInt (readingSrc tB addr) = Except.ok ct) :
    elemUpdate tB addr st n =
      Except.ok (((n.setD "ST" (ct : Rat)).setD "CLISPH" (sp : Rat)).update_mode_drivers st) := by
  unfold elemUpdate
  rw [hA, if_pos rfl, hsp, hct]

theorem elemUpdate_eq (tB : TempBlock) (addr : String) (st : Option String) (n : PNode)
    (v : Int) (hA : isTempControlAddr addr = false)
    (hst : asInt st = Except.ok v) :
    elemUpdate tB addr st n = Except.ok (n.setD "ST" (v : Rat)) := by
  unfold elemUpdate
  rw [hA, if_neg (by simp), hst]

theorem tcApplied_ST (n : PNode) (sp ct : Rat) (st : Option String) :
    getDriver (((n.setD "ST" ct).setD "CLISPH" sp).update_mode_drivers st).drivers "ST" =
      (getDriver n.drivers "ST").map (fun _ => ct) := by
  rw [getDriver_update_mode_drivers _ _ _ (by decide) (by decide),
    getDriver_setD_ne _ "CLISPH" "ST" _ (by decide), getDriver_setD]
  rw [if_pos rfl]

theorem tcApplied_SP (n : PNode) (sp ct : Rat) (st : Option String) :
    getDriver (((n.setD "ST" ct).setD "CLISPH" sp).update_mode_drivers st).drivers "CLISPH" =
      (getDriver n.drivers "CLISPH").map (fun _ => sp) := by
  rw [getDriver_update_mode_drivers _ _ _ (by decide) (by decide), getDriver_setD,
    if_pos rfl, getDriver_setD_ne n "ST" "CLISPH" _ (by decide)]

theorem mode_code_values_map (m : PNode) :
    (getDriver (m.update_mode_drivers (some "0")).drivers "CLIMD" =
        (getDriver m.drivers "CLIMD").map (fun _ => (0 : Rat)) ∧
      getDriver (m.update_mode_drivers (some "0")).drivers "CLIHCS" =
        (getDriver m.drivers "CLIHCS").map (fun _ => (0 : Rat))) ∧
    (getDriver (m.update_mode_drivers (some "1")).drivers "CLIMD" =
        (getDriver m.drivers "CLIMD").map (fun _ => (1 : Rat)) ∧
      getDriver (m.update_mode_drivers (some "1")).drivers "CLIHCS" =
        (getDriver m.drivers "CLIHCS").map (fun _ => (0 : Rat))) ∧
    (getDriver (m.update_mode_drivers (some "2")).drivers "CLIMD" =
        (getDriver m.drivers "CLIMD").map (fun _ => (1 : Rat)) ∧
      getDriver (m.update_mode_drivers (some "2")).drivers "CLIHCS" =
        (getDriver m.drivers "CLIHCS").map (fun _ => (1 : Rat))) := by
  have e0 : m.update_mode_drivers (some "0") = (m.setD "CLIMD" 0).setD "CLIHCS" 0 := rfl
  have e1 : m.update_mode_drivers (some "1") = (m.setD "CLIMD" 1).setD "CLIHCS" 0 := rfl
  have e2 : m.update_mode_drivers (some "2") = (m.setD "CLIMD" 1).setD "CLIHCS" 1 := rfl
  refine ⟨⟨?_, ?_⟩, ⟨?_, ?_⟩, ⟨?_, ?_⟩⟩
  · rw [e0, getDriver_setD_ne _ "CLIHCS" "CLIMD" _ (by decide), getDriver_setD, if_pos rfl]
  · rw [e0, getDriver_setD, if_pos rfl, getDriver_setD_ne _ "CLIMD" "CLIHCS" _ (by decide)]
  · rw [e1, getDriver_setD_ne _ "CLIHCS" "CLIMD" _ (by decide), getDriver_setD, if_pos rfl]
  · rw [e1, getDriver_setD, if_pos rfl, getDriver_setD_ne _ "CLIMD" "CLIHCS" _ (by decide)]
  · rw [e2, getDriver_setD_ne _ "CLIHCS" "CLIMD" _ (by decide), getDriver_setD, if_pos rfl]
  · rw [e2, getDriver_setD, if_pos rfl, getDriver_setD_ne _ "CLIMD" "CLIHCS" _ (by decide)]

/-- C6 (confirmed): once a snapshot is obtained (and its unit matches
the cached one), reconciliation writes every live thermal-zone node
present in the snapshot from the fixed per-address lookup — `poolht`
from (poolsp, pooltemp), `poolht2` from (poolsp2, pooltemp), `spaht`
from (spasp, spatemp), `solarht` from (poolsp, solartemp), i.e. solar
borrows the pool setpoint but uses its own reading — derives the
CLIMD/CLIHCS pair from the tri-valued status code, and writes a plain
equipment node's single ST attribute as the integer value of its
element. -/
theorem C6_reconcile_values (c : Controller) (report : Bool) (snap : Snapshot)
    (c2 : Controller) (addr st : String) (n : PNode) (ps ps2 ss pt spt sot : Int)
    (hU : snap.temp.tempunits = some c.currentTempUnit)
    (hnd : (snap.equipment.map Prod.fst).Nodup)
    (hmem : (addr, some st) ∈ snap.equipment)
    (hn : lookupNode c.nodes addr = some n)
    (hps : asInt snap.temp.poolsp = Except.ok ps)
    (hps2 : asInt snap.temp.poolsp2 = Except.ok ps2)
    (hss : asInt snap.temp.spasp = Except.ok ss)
    (hpt : asInt snap.temp.pooltemp = Except.ok pt)
    (hspt : asInt snap.temp.spatemp = Except.ok spt)
    (hsot : asInt snap.temp.solartemp = Except.ok sot)
    (hEq : update_node_states c report (some snap) = Except.ok c2) :
    ∃ n2, lookupNode c2.nodes addr = some n2 ∧
      (addr = "poolht" →
        getDriver n2.drivers "ST" = (getDriver n.drivers "ST").map (fun _ => (pt : Rat)) ∧
        getDriver n2.drivers "CLISPH" =
          (getDriver n.drivers "CLISPH").map (fun _ => (ps : Rat))) ∧
      (addr = "poolht2" →
        getDriver n2.drivers "ST" = (getDriver n.drivers "ST").map (fun _ => (pt : Rat)) ∧
        getDriver n2.drivers "CLISPH" =
          (getDriver n.drivers "CLISPH").map (fun _ => (ps2 : Rat))) ∧
      (addr = "spaht" →
        getDriver n2.drivers "ST" = (getDriver n.drivers "ST").map (fun _ => (spt : Rat)) ∧
        getDriver n2.drivers "CLISPH" =
          (getDriver n.drivers "CLISPH").map (fun _ => (ss : Rat))) ∧
      (addr = "solarht" →
        getDriver n2.drivers "ST" = (getDriver n.drivers "ST").map (fun _ => (sot : Rat)) ∧
        getDriver n2.drivers "CLISPH" =
          (getDriver n.drivers "CLISPH").map (fun _ => (ps : Rat))) ∧
      (isTempControlAddr addr = true →
        (st = "0" →
          getDriver n2.drivers "CLIMD" =
            (getDriver n.drivers "CLIMD").map (fun _ => (0 : Rat)) ∧
          getDriver n2.drivers "CLIHCS" =
            (getDriver n.drivers "CLIHCS").map (fun _ => (0 : Rat))) ∧
        (st = "1" →
          getDriver n2.drivers "CLIMD" =
            (getDriver n.drivers "CLIMD").map (fun _ => (1 : Rat)) ∧
          getDriver n2.drivers "CLIHCS" =
            (getDriver n.drivers "CLIHCS").map (fun _ => (0 : Rat))) ∧
        (st = "2" →
          getDriver n2.drivers "CLIMD" =
            (getDriver n.drivers "CLIMD").map (fun _ => (1 : Rat)) ∧
          getDriver n2.drivers "CLIHCS" =
            (getDriver n.drivers "CLIHCS").map (fun _ => (1 : Rat)))) ∧
      (isTempControlAddr addr = false → ∀ v : Int, pythonInt st = some v →
        getDriver n2.drivers "ST" = (getDriver n.drivers "ST").map (fun _ => (v : Rat))) := by
  have hinv := update_node_states_nodes_inv c report snap c2 c.currentTempUnit hU hEq
  have hUS : unitSync c c.currentTempUnit = c := by
    unfold unitSync
    simp
  rw [hUS] at hinv
  obtain ⟨n2, he, hl⟩ := applyEquipElements_point snap.temp snap.equipment c.nodes c2.nodes
    addr (some st) n hnd hmem hinv hn
  refine ⟨n2, hl, ?_, ?_, ?_, ?_, ?_, ?_⟩
  · intro h
    subst h
    have hsp : asInt (setpointSrc snap.temp "poolht") = Except.ok ps := hps
    have hct : asInt (readingSrc snap.temp "poolht") = Except.ok pt := hpt
    rw [elemUpdate_tc snap.temp "poolht" (some st) n ps pt rfl hsp hct] at he
    rw [← Except.ok.inj he]
    exact ⟨tcApplied_ST n ps pt (some st), tcApplied_SP n ps pt (some st)⟩
  · intro h
    subst h
    have hsp : asInt (setpointSrc snap.temp "poolht2") = Except.ok ps2 := hps2
    have hct : asInt (readingSrc snap.temp "poolht2") = Except.ok pt := hpt
    rw [elemUpdate_tc snap.temp "poolht2" (some st) n ps2 pt rfl hsp hct] at he
    rw [← Except.ok.inj he]
    exact ⟨tcApplied_ST n ps2 pt (some st), tcApplied_SP n ps2 pt (some st)⟩
  · intro h
    subst h
    have hsp : asInt (setpointSrc snap.temp "spaht") = Except.ok ss := hss
    have hct : asInt (readingSrc snap.temp "spaht") = Except.ok spt := hspt
    rw [elemUpdate_tc snap.temp "spaht" (some st) n ss spt rfl hsp hct] at he
    rw [← Except.ok.inj he]
    exact ⟨tcApplied_ST n ss spt (some st), tcApplied_SP n ss spt (some st)⟩
  · intro h
    subst h
    have hsp : asInt (setpointSrc snap.temp "solarht") = Except.ok ps := hps
    have hct : asInt (readingSrc snap.temp "solarht") = Except.ok sot := hsot
    rw [elemUpdate_tc snap.temp "solarht" (some st) n ps sot rfl hsp hct] at he
    rw [← Except.ok.inj he]
    exact ⟨tcApplied_ST n ps sot (some st), tcApplied_SP n ps sot (some st)⟩
  · intro hta
    have hshape : ∃ spv ctv : Int,
        n2 = ((n.setD "ST" (ctv : Rat)).setD "CLISPH" (spv : Rat)).update_mode_drivers
          (some st) := by
      unfold elemUpdate at he
      rw [hta, if_pos rfl] at he
      cases hA : asInt (setpointSrc snap.temp addr) with
      | error e =>
        rw [hA] at he
        exact Except.noConfusion he
      | ok spv =>
        rw [hA] at he
        cases hB : asInt (readingSrc snap.temp addr) with
        | error e =>
          rw [hB] at he
          exact Except.noConfusion he
        | ok ctv =>
          rw [hB] at he
          exact ⟨spv, ctv, (Except.ok.inj he).symm⟩
    obtain ⟨spv, ctv, rfl⟩ := hshape
    have hMDeq : getDriver ((n.setD "ST" (ctv : Rat)).setD "CLISPH" (spv : Rat)).drivers
        "CLIMD" = getDriver n.drivers "CLIMD" := by
      rw [getDriver_setD_ne _ "CLISPH" "CLIMD" _ (by decide),
        getDriver_setD_ne _ "ST" "CLIMD" _ (by decide)]
    have hHCSeq : getDriver ((n.setD "ST" (ctv : Rat)).setD "CLISPH" (spv : Rat)).drivers
        "CLIHCS" = getDriver n.drivers "CLIHCS" := by
      rw [getDriver_setD_ne _ "CLISPH" "CLIHCS" _ (by decide),
        getDriver_setD_ne _ "ST" "CLIHCS" _ (by decide)]
    obtain ⟨m0, m1, m2⟩ :=
      mode_code_values_map ((n.setD "ST" (ctv : Rat)).setD "CLISPH" (spv : Rat))
    refine ⟨fun h0 => ?_, fun h1 => ?_, fun h2 => ?_⟩
    · subst h0
      rw [m0.1, m0.2, hMDeq, hHCSeq]
      exact ⟨rfl, rfl⟩
    · subst h1
      rw [m1.1, m1.2, hMDeq, hHCSeq]
      exact ⟨rfl, rfl⟩
    · subst h2
      rw [m2.1, m2.2, hMDeq, hHCSeq]
      exact ⟨rfl, rfl⟩
  · intro hta v hv
    have hst : asInt (some st) = Except.ok v := by
      have hst1 : asIntS st = Except.ok v := by
        unfold asIntS
        rw [hv]
      exact hst1
    rw [elemUpdate_eq snap.temp addr (some st) n v hta hst] at he
    rw [← Except.ok.inj he, getDriver_setD, if_pos rfl]

/-- a controller tracking a pool-heat TempControl and a pump. -/
def ctrlW6 : Controller :=
  { drivers := controllerDrivers,
    nodes := [("poolht", mkTempControl "poolht" "poolht" "F"),
      ("pump1", mkEquipment "pump1" "pump1")],
    currentTempUnit := "F", ignoresolar := false, announcements := [] }

/-- a full well-formed snapshot for those two nodes. -/
def snapW6 : Snapshot :=
  { system := { runstate := some "1", opmode := some "0", lowbat := some "0", vbat := some "100" },
    temp := { tempunits := some "F", airtemp := some "70", poolsp := some "85",
              poolsp2 := some "0", spasp := some "0", pooltemp := some "84",
              spatemp := some "0", solartemp := some "0" },
    equipment := [("poolht", some "1"), ("pump1", some "1")] }

/-- the controller state produced by reconciling `ctrlW6` against
`snapW6`. -/
def c2W6 : Controller :=
  match update_node_states ctrlW6 true (some snapW6) with
  | Except.ok c => c
  | Except.error _ => ctrlW6

/-- C6 witness: the reconcile-value theorem evaluated on the concrete
scenario, extracting the pool-heat setpoint 85, reading 84 and mode
pair for status code "1". -/
theorem C6_witness :
    ∃ n2, lookupNode c2W6.nodes "poolht" = some n2 ∧
      getDriver n2.drivers "ST" = some 84 ∧
      getDriver n2.drivers "CLISPH" = some 85 ∧
      getDriver n2.drivers "CLIMD" = some 1 ∧
      getDriver n2.drivers "CLIHCS" = some 0 := by
  obtain ⟨n2, hl, hp, -, -, -, hm, -⟩ := C6_reconcile_values ctrlW6 true snapW6 c2W6
    "poolht" "1" (mkTempControl "poolht" "poolht" "F") 85 0 0 84 0 0
    rfl (by decide) (by decide) rfl rfl rfl rfl rfl rfl rfl rfl
  refine ⟨n2, hl, ?_, ?_, ?_, ?_⟩
  · rw [(hp rfl).1]
    rfl
  · rw [(hp rfl).2]
    rfl
  · rw [((hm rfl).2.1 rfl).1]
    rfl
  · rw [((hm rfl).2.1 rfl).2]
    rfl

end Autelis
